import Mathlib

/-!
Shallow embedding of the MERN e-commerce backend (src/server.js).

The server exposes six routes over a single Mongo collection of products:
upload, create, list, get-by-id, update, favorite-toggle, delete.  Each
Express handler is embedded as a pure Lean function from the database
state (a list of documents) and the parsed request to an HTTP response
(and the successor state for the mutating routes).

Modelling conventions, each justified against the source:
* `req.body.<field>` values are `Option String` (`none` = the multipart
  field was absent, i.e. the JS value is `undefined`).
* The JS expression `a || b` on such fields is `jsOr`: an absent field or
  an empty string is falsy and falls through to `b`.
* `req.files` under `upload.array` is always an array (possibly empty);
  it is a `List UploadedFile`.  `req.files[0]?.path` is
  `(files.head?).map UploadedFile.path`.
* Mongo `_id` values are strings.  `findById` (and the other by-id
  operations) first cast the string to an ObjectId: a malformed string
  throws a CastError, modelled as `Except.error`; validity is
  `isValidObjectId` (24 hex characters, or a 12-character string).
* `Model.findByIdAndUpdate` with a plain update object strips `undefined`
  values from the update (Mongoose omits undefined keys), so an `Option`
  field that is `none` leaves the stored field unchanged (`applyUpdate`).
* `document.save()` after mutating a fetched document writes it back at
  its `_id`; since `_id` is unique in the collection this is `dbReplace`.
-/

/-- One stored product document (schema `productSchema` in server.js).
Fields other than `_id` and `images` are optional in a Mongo document:
`none` models an absent field. -/
structure Product where
  id : String
  sku : Option String
  name : Option String
  quantity : Option String
  description : Option String
  images : List String
  featuredImage : Option String
  isFavorite : Option Bool
deriving Repr, DecidableEq

/-- Metadata of one uploaded file as produced by multer; only `path` is
read by the handlers. -/
structure UploadedFile where
  path : String
deriving Repr, DecidableEq

/-- The scalar multipart fields read from `req.body` by the create and
update handlers. -/
structure ReqBody where
  sku : Option String
  name : Option String
  quantity : Option String
  description : Option String
  featuredImage : Option String
deriving Repr, DecidableEq

/-- A request body with every field absent. -/
def emptyBody : ReqBody :=
  { sku := none, name := none, quantity := none, description := none,
    featuredImage := none }

/-- JS `a || b` on optional string fields: `undefined` and the empty
string are falsy. -/
def jsOr (a b : Option String) : Option String :=
  match a with
  | some s => if s = "" then b else some s
  | none => b

/-- The JSON bodies the handlers produce. -/
inductive Body where
  | empty
  | product (p : Product)
  | products (ps : List Product)
  | messageOnly (message : String)
  | messageProduct (message : String) (p : Product)
  | messageFile (message : String) (file : Option UploadedFile)
  | rawError (e : String)
deriving Repr, DecidableEq

/-- An HTTP response: status code plus JSON body. -/
structure Response where
  status : Nat
  body : Body
deriving Repr, DecidableEq

/-- The database state: the products collection. -/
abbrev DB := List Product

/-- A hexadecimal digit. -/
def isHexChar (c : Char) : Bool :=
  c.isDigit || (Char.ofNat 97 ≤ c && c ≤ Char.ofNat 102)
    || (Char.ofNat 65 ≤ c && c ≤ Char.ofNat 70)

/-- Whether a string casts to a Mongo ObjectId (24 hex characters, or a
12-character string taken as 12 raw bytes). -/
def isValidObjectId (s : String) : Bool :=
  (s.toList.length = 24 && s.toList.all isHexChar) || s.toList.length = 12

/-- Plain lookup of a document by `_id` in the collection. -/
def dbFind (db : DB) (id : String) : Option Product :=
  db.find? (fun q => q.id == id)

/-- Write back a mutated document at its `_id` (`document.save()` on a
fetched document; `_id` is unique in a Mongo collection). -/
def dbReplace (db : DB) (id : String) (p2 : Product) : DB :=
  db.map (fun q => bif q.id == id then p2 else q)

/-- `Product.findById`: throws a CastError on a malformed id, otherwise
returns the matching document or null. -/
def mongoFindById (db : DB) (id : String) : Except String (Option Product) :=
  if isValidObjectId id then Except.ok (dbFind db id)
  else Except.error "CastError"

/-- `Product.findByIdAndDelete`: throws on a malformed id, otherwise
removes the matching document (if any) unconditionally. -/
def mongoFindByIdAndDelete (db : DB) (id : String) : Except String DB :=
  if isValidObjectId id then Except.ok (db.filter (fun p => p.id != id))
  else Except.error "CastError"

/-- The update object built by the update handler.  A `none` scalar field
is a JS `undefined` value, which Mongoose strips from the update. -/
structure UpdateData where
  sku : Option String
  name : Option String
  quantity : Option String
  description : Option String
  featuredImage : Option String
  images : Option (List String)
deriving Repr, DecidableEq

/-- Apply an update object to a stored document: `undefined` (`none`)
fields are stripped by Mongoose and leave the stored field unchanged. -/
def applyUpdate (p : Product) (u : UpdateData) : Product :=
  { p with
    sku := match u.sku with | some s => some s | none => p.sku
    name := match u.name with | some s => some s | none => p.name
    quantity := match u.quantity with | some s => some s | none => p.quantity
    description := match u.description with | some s => some s | none => p.description
    featuredImage := match u.featuredImage with | some s => some s | none => p.featuredImage
    images := match u.images with | some l => l | none => p.images }

/-- `Product.findByIdAndUpdate(id, u, \x7bnew: true\x7d)`: throws on a
malformed id; otherwise returns the updated document, or null when no
document matches. -/
def mongoFindByIdAndUpdate (db : DB) (id : String) (u : UpdateData) :
    Except String (DB × Option Product) :=
  if isValidObjectId id then
    match dbFind db id with
    | none => Except.ok (db, none)
    | some p => Except.ok (dbReplace db id (applyUpdate p u), some (applyUpdate p u))
  else Except.error "CastError"

/-- The try block of the upload handler: builds the 200 response; it
performs no operation that can throw. -/
def uploadTryBody (file : Option UploadedFile) : Except String Response :=
  Except.ok { status := 200, body := Body.messageFile "File uploaded successfully!" file }

/-- `POST /upload`: respond 200 with the multer file metadata (absent
when no file was sent); the catch branch would respond 500. -/
def uploadHandler (file : Option UploadedFile) : Response :=
  match uploadTryBody file with
  | Except.ok r => r
  | Except.error _ => { status := 500, body := Body.messageOnly "File upload failed" }

/-- The product document built by `POST /api/products`: images are the
uploaded file paths; featuredImage is `req.body.featuredImage ||
req.files[0]?.path`; isFavorite is not set. -/
def buildProduct (newId : String) (b : ReqBody) (files : List UploadedFile) : Product :=
  { id := newId
    sku := b.sku
    name := b.name
    quantity := b.quantity
    description := b.description
    images := files.map (fun f => f.path)
    featuredImage := jsOr b.featuredImage ((files.head?).map (fun f => f.path))
    isFavorite := none }

/-- `POST /api/products`: build the document, persist it (the layer
assigns the fresh id `newId`), respond 201 with it. -/
def createHandler (db : DB) (newId : String) (b : ReqBody) (files : List UploadedFile) :
    DB × Response :=
  let p := buildProduct newId b files
  (db ++ [p], { status := 201, body := Body.messageProduct "Product successfully added" p })

/-- `GET /api/products/:id`: 200 with the document, 404 when null,
500 when `findById` throws (malformed id). -/
def getProductHandler (db : DB) (id : String) : Response :=
  match mongoFindById db id with
  | Except.error _ => { status := 500, body := Body.messageOnly "Error fetching product" }
  | Except.ok none => { status := 404, body := Body.messageOnly "Product not found" }
  | Except.ok (some p) => { status := 200, body := Body.product p }

/-- `PUT /api/products/:id`: build the update object; with new files the
images are replaced by the new paths, otherwise they are carried over by
a read-before-write (`product.images` on the fetched document, which
throws a TypeError when the document is null); then
`findByIdAndUpdate` with `\x7bnew: true\x7d`; null result gives 404; any
throw is caught and gives 500. -/
def updateHandler (db : DB) (id : String) (b : ReqBody) (files : List UploadedFile) :
    DB × Response :=
  let u0 : UpdateData :=
    { sku := b.sku, name := b.name, quantity := b.quantity,
      description := b.description,
      featuredImage := jsOr b.featuredImage ((files.head?).map (fun f => f.path)),
      images := none }
  let withImages : Except String UpdateData :=
    if files.length > 0 then
      Except.ok { u0 with images := some (files.map (fun f => f.path)) }
    else
      match mongoFindById db id with
      | Except.error e => Except.error e
      | Except.ok none => Except.error "TypeError: cannot read images of null"
      | Except.ok (some p) => Except.ok { u0 with images := some p.images }
  match withImages with
  | Except.error _ => (db, { status := 500, body := Body.messageOnly "Error updating product" })
  | Except.ok u =>
    match mongoFindByIdAndUpdate db id u with
    | Except.error _ => (db, { status := 500, body := Body.messageOnly "Error updating product" })
    | Except.ok (db2, none) => (db2, { status := 404, body := Body.messageOnly "Product not found" })
    | Except.ok (db2, some p2) => (db2, { status := 200, body := Body.product p2 })

/-- The in-place mutation `product.isFavorite = !product.isFavorite`:
JS `!` sends `undefined` and `false` to `true`, and `true` to `false`. -/
def toggleFavoriteDoc (p : Product) : Product :=
  { p with isFavorite := some (! (p.isFavorite.getD false)) }

/-- `PUT /api/products/:id/favorite`: fetch, flip isFavorite, save,
respond 200 with the document; null gives 404; a throw gives 500. -/
def favoriteHandler (db : DB) (id : String) : DB × Response :=
  match mongoFindById db id with
  | Except.error _ =>
      (db, { status := 500, body := Body.messageOnly "Error toggling favorite status" })
  | Except.ok none => (db, { status := 404, body := Body.messageOnly "Product not found" })
  | Except.ok (some p) =>
      let p2 := toggleFavoriteDoc p
      (dbReplace db id p2, { status := 200, body := Body.product p2 })

/-- `DELETE /api/products/:id`: `findByIdAndDelete` then 204 with an
empty body, with no existence check; a throw gives 500 with the raw
error. -/
def deleteProductHandler (db : DB) (id : String) : DB × Response :=
  match mongoFindByIdAndDelete db id with
  | Except.error e => (db, { status := 500, body := Body.rawError e })
  | Except.ok db2 => (db2, { status := 204, body := Body.empty })

/-! ## Helper lemmas about the database model -/

/-- A document found by id carries that id. -/
theorem dbFind_id {db : DB} {id : String} {p : Product}
    (h : dbFind db id = some p) : p.id = id := by
  have h2 := List.find?_some h
  simpa using h2

/-- Looking up after a write-back at the same id returns the written
document. -/
theorem dbFind_dbReplace {db : DB} {id : String} {p p2 : Product}
    (h : dbFind db id = some p) (h2 : p2.id = id) :
    dbFind (dbReplace db id p2) id = some p2 := by
  induction db with
  | nil => simp [dbFind] at h
  | cons q t ih =>
    simp only [dbFind, dbReplace, List.map_cons, List.find?_cons] at h ⊢
    cases hq : (q.id == id) with
    | true =>
      have hp2 : (p2.id == id) = true := beq_iff_eq.mpr h2
      simp [hq, hp2]
    | false =>
      simp only [hq, Bool.cond_false] at h ⊢
      exact ih h

/-- Looking up after deleting that id finds nothing. -/
theorem dbFind_filter_ne (db : DB) (id : String) :
    dbFind (db.filter (fun p => p.id != id)) id = none := by
  induction db with
  | nil => rfl
  | cons q t ih =>
    simp only [List.filter_cons]
    cases hq : (q.id == id) with
    | true =>
      have hb : (q.id != id) = false := by simp [bne, hq]
      simpa [hb] using ih
    | false =>
      have hb : (q.id != id) = true := by simp [bne, hq]
      simp only [hb, if_true, dbFind, List.find?_cons, hq]
      exact ih

/-- Appending a document with a fresh id makes it the lookup result. -/
theorem dbFind_append_fresh {db : DB} {id : String} (p : Product)
    (h : dbFind db id = none) (h2 : p.id = id) :
    dbFind (db ++ [p]) id = some p := by
  induction db with
  | nil =>
    have hp : (p.id == id) = true := beq_iff_eq.mpr h2
    simp [dbFind, List.find?_cons, hp]
  | cons q t ih =>
    simp only [dbFind, List.cons_append, List.find?_cons] at h ⊢
    cases hq : (q.id == id) with
    | true => simp [hq] at h
    | false =>
      simp only [hq] at h ⊢
      exact ih h

/-- Characterization of the update route when the request carries no new
files and the document exists: the images are carried over by the
read-before-write and the update succeeds with status 200. -/
theorem updateHandler_noFiles (db : DB) {id : String} (b : ReqBody) {p : Product}
    (hv : isValidObjectId id = true) (hf : dbFind db id = some p) :
    updateHandler db id b [] =
      (dbReplace db id (applyUpdate p
        { sku := b.sku, name := b.name, quantity := b.quantity,
          description := b.description, featuredImage := jsOr b.featuredImage none,
          images := some p.images }),
       { status := 200,
         body := Body.product (applyUpdate p
          { sku := b.sku, name := b.name, quantity := b.quantity,
            description := b.description, featuredImage := jsOr b.featuredImage none,
            images := some p.images }) }) := by
  simp [updateHandler, mongoFindById, mongoFindByIdAndUpdate, hv, hf]

/-- Characterization of the update route when the request carries new
files and the document exists: the images are replaced by the new file
paths and the update succeeds with status 200. -/
theorem updateHandler_withFiles (db : DB) {id : String} (b : ReqBody)
    (f0 : UploadedFile) (fs : List UploadedFile) {p : Product}
    (hv : isValidObjectId id = true) (hf : dbFind db id = some p) :
    updateHandler db id b (f0 :: fs) =
      (dbReplace db id (applyUpdate p
        { sku := b.sku, name := b.name, quantity := b.quantity,
          description := b.description,
          featuredImage := jsOr b.featuredImage (some f0.path),
          images := some ((f0 :: fs).map (fun f => f.path)) }),
       { status := 200,
         body := Body.product (applyUpdate p
          { sku := b.sku, name := b.name, quantity := b.quantity,
            description := b.description,
            featuredImage := jsOr b.featuredImage (some f0.path),
            images := some ((f0 :: fs).map (fun f => f.path)) }) }) := by
  simp [updateHandler, mongoFindById, mongoFindByIdAndUpdate, hv, hf]

/-- Characterization of the favorite route when the document exists. -/
theorem favoriteHandler_found {db : DB} {id : String} {p : Product}
    (hv : isValidObjectId id = true) (hf : dbFind db id = some p) :
    favoriteHandler db id =
      (dbReplace db id (toggleFavoriteDoc p),
       { status := 200, body := Body.product (toggleFavoriteDoc p) }) := by
  simp [favoriteHandler, mongoFindById, hv, hf]

/-! ## Claims -/

/-- Claim C10: every upload request, including one with no file under the
expected field, gets a 200 response carrying the message and the (absent
when missing) file metadata; the catch branch of the handler never fires
because the try block cannot throw. -/
theorem C10_upload_always_ok (file : Option UploadedFile) :
    uploadHandler file =
      { status := 200, body := Body.messageFile "File uploaded successfully!" file } := rfl

/-- Claim C5: get-by-id answers 404 with message "Product not found" on a
well-formed identifier matching no document, and 500 on a malformed
identifier (the cast failure is handled by the same catch as any lookup
failure). -/
theorem C5_get_by_id_errors (id : String) (db : DB) :
    (isValidObjectId id = true → dbFind db id = none →
      getProductHandler db id =
        { status := 404, body := Body.messageOnly "Product not found" }) ∧
    (isValidObjectId id = false →
      getProductHandler db id =
        { status := 500, body := Body.messageOnly "Error fetching product" }) := by
  constructor
  · intro hv hn
    simp [getProductHandler, mongoFindById, hv, hn]
  · intro hv
    simp [getProductHandler, mongoFindById, hv]

/-- Witness for C5 at a well-formed fresh identifier and at a malformed
identifier. -/
theorem C5_get_by_id_errors_witness :
    getProductHandler [] "aaaaaaaaaaaaaaaaaaaaaaaa" =
      { status := 404, body := Body.messageOnly "Product not found" } ∧
    getProductHandler [] "not-an-id" =
      { status := 500, body := Body.messageOnly "Error fetching product" } :=
  ⟨(C5_get_by_id_errors "aaaaaaaaaaaaaaaaaaaaaaaa" []).1 (by decide) rfl,
   (C5_get_by_id_errors "not-an-id" []).2 (by decide)⟩

/-- Claim C6: for a well-formed identifier the delete route answers 204 with an
empty body whether or not a document matched (no existence check), and a
get-by-id on that identifier after the delete answers 404. -/
theorem C6_delete_unconditional (db : DB) (id : String)
    (hv : isValidObjectId id = true) :
    (deleteProductHandler db id).2 = { status := 204, body := Body.empty } ∧
    getProductHandler (deleteProductHandler db id).1 id =
      { status := 404, body := Body.messageOnly "Product not found" } := by
  constructor
  · simp [deleteProductHandler, mongoFindByIdAndDelete, hv]
  · simp [deleteProductHandler, mongoFindByIdAndDelete, getProductHandler,
      mongoFindById, hv, dbFind_filter_ne]

/-- Witness for C6: deleting an existing document and deleting on an
empty collection both answer 204, and the follow-up get answers 404. -/
theorem C6_delete_unconditional_witness :
    (deleteProductHandler
        [{ id := "aaaaaaaaaaaaaaaaaaaaaaaa", sku := none, name := none,
           quantity := none, description := none, images := [],
           featuredImage := none, isFavorite := none }]
        "aaaaaaaaaaaaaaaaaaaaaaaa").2 = { status := 204, body := Body.empty } ∧
    getProductHandler
        (deleteProductHandler
          [{ id := "aaaaaaaaaaaaaaaaaaaaaaaa", sku := none, name := none,
             quantity := none, description := none, images := [],
             featuredImage := none, isFavorite := none }]
          "aaaaaaaaaaaaaaaaaaaaaaaa").1 "aaaaaaaaaaaaaaaaaaaaaaaa" =
      { status := 404, body := Body.messageOnly "Product not found" } :=
  C6_delete_unconditional
    [{ id := "aaaaaaaaaaaaaaaaaaaaaaaa", sku := none, name := none,
       quantity := none, description := none, images := [],
       featuredImage := none, isFavorite := none }]
    "aaaaaaaaaaaaaaaaaaaaaaaa" (by decide)

/-- Claim C2: the claim states that an update addressed to a missing identifier
answers 404 whether or not the request carries files.  On the code this
fails in the no-files branch: the carry-over read fetches null and the
access to its images throws, so the catch answers 500.  This theorem
evaluates the handler at the failing input (well-formed fresh identifier,
no files) and, for contrast, at the same identifier with one file, where
the 404 the claim requires is produced. -/
theorem C2_update_missing_divergence :
    (updateHandler [] "aaaaaaaaaaaaaaaaaaaaaaaa" emptyBody []).2 =
      { status := 500, body := Body.messageOnly "Error updating product" } ∧
    (updateHandler [] "aaaaaaaaaaaaaaaaaaaaaaaa" emptyBody
        [{ path := "uploads/1.png" }]).2 =
      { status := 404, body := Body.messageOnly "Product not found" } := by
  constructor
  · decide
  · decide

/-- Flipping a fetched document twice stores the original flag value,
with an unset flag stored as false (JS negation treats unset as false). -/
theorem toggleFavoriteDoc_twice (p : Product) :
    toggleFavoriteDoc (toggleFavoriteDoc p) =
      { p with isFavorite := some (p.isFavorite.getD false) } := by
  cases hfav : p.isFavorite with
  | none => simp [toggleFavoriteDoc, hfav]
  | some bb => cases bb <;> simp [toggleFavoriteDoc, hfav]

/-- Claim C4: toggling the favorite flag of an existing product twice leaves
the stored document with its original isFavorite value, where the claim
(like the data model) identifies an unset flag with false: a document
whose flag was unset ends with the flag stored explicitly as false. -/
theorem C4_toggle_toggle_identity (db : DB) (id : String) (p : Product)
    (hv : isValidObjectId id = true) (hf : dbFind db id = some p) :
    dbFind ((favoriteHandler ((favoriteHandler db id).1) id).1) id =
      some { p with isFavorite := some (p.isFavorite.getD false) } := by
  have h1 := favoriteHandler_found hv hf
  have hpid : p.id = id := dbFind_id hf
  have hid : (toggleFavoriteDoc p).id = id := hpid
  have hf1 : dbFind (favoriteHandler db id).1 id = some (toggleFavoriteDoc p) := by
    rw [h1]
    exact dbFind_dbReplace hf hid
  have hid2 : (toggleFavoriteDoc (toggleFavoriteDoc p)).id = id := hpid
  rw [favoriteHandler_found hv hf1]
  rw [dbFind_dbReplace hf1 hid2, toggleFavoriteDoc_twice]

/-- Witness for C4 on a one-document collection whose flag is unset. -/
theorem C4_toggle_toggle_identity_witness :
    dbFind ((favoriteHandler ((favoriteHandler
        [{ id := "aaaaaaaaaaaaaaaaaaaaaaaa", sku := some "A1", name := some "W",
           quantity := some "3", description := some "x", images := [],
           featuredImage := none, isFavorite := none }]
        "aaaaaaaaaaaaaaaaaaaaaaaa").1) "aaaaaaaaaaaaaaaaaaaaaaaa").1)
      "aaaaaaaaaaaaaaaaaaaaaaaa" =
      some { id := "aaaaaaaaaaaaaaaaaaaaaaaa", sku := some "A1", name := some "W",
             quantity := some "3", description := some "x", images := [],
             featuredImage := none, isFavorite := some false } :=
  C4_toggle_toggle_identity
    [{ id := "aaaaaaaaaaaaaaaaaaaaaaaa", sku := some "A1", name := some "W",
       quantity := some "3", description := some "x", images := [],
       featuredImage := none, isFavorite := none }]
    "aaaaaaaaaaaaaaaaaaaaaaaa" _ (by decide) rfl

/-- Claim C8: toggling the favorite flag of an existing product changes only
isFavorite: identifier, sku, name, quantity, description, images and
featuredImage are unchanged, and the stored document equals the document
returned in the 200 response. -/
theorem C8_toggle_frame (db : DB) (id : String) (p : Product)
    (hv : isValidObjectId id = true) (hf : dbFind db id = some p) :
    (favoriteHandler db id).2 =
      { status := 200, body := Body.product (toggleFavoriteDoc p) } ∧
    dbFind (favoriteHandler db id).1 id = some (toggleFavoriteDoc p) ∧
    (toggleFavoriteDoc p).id = p.id ∧
    (toggleFavoriteDoc p).sku = p.sku ∧
    (toggleFavoriteDoc p).name = p.name ∧
    (toggleFavoriteDoc p).quantity = p.quantity ∧
    (toggleFavoriteDoc p).description = p.description ∧
    (toggleFavoriteDoc p).images = p.images ∧
    (toggleFavoriteDoc p).featuredImage = p.featuredImage := by
  have hpid : p.id = id := dbFind_id hf
  have hid : (toggleFavoriteDoc p).id = id := hpid
  refine ⟨?_, ?_, rfl, rfl, rfl, rfl, rfl, rfl, rfl⟩
  · rw [favoriteHandler_found hv hf]
  · rw [favoriteHandler_found hv hf]
    exact dbFind_dbReplace hf hid

/-- Witness for C8 on a one-document collection. -/
theorem C8_toggle_frame_witness :
    (favoriteHandler
        [{ id := "aaaaaaaaaaaaaaaaaaaaaaaa", sku := some "A1", name := some "W",
           quantity := some "3", description := some "x",
           images := ["uploads/a.png"], featuredImage := some "uploads/a.png",
           isFavorite := some false }] "aaaaaaaaaaaaaaaaaaaaaaaa").2 =
      { status := 200, body := Body.product (toggleFavoriteDoc
          { id := "aaaaaaaaaaaaaaaaaaaaaaaa", sku := some "A1", name := some "W",
            quantity := some "3", description := some "x",
            images := ["uploads/a.png"], featuredImage := some "uploads/a.png",
            isFavorite := some false }) } ∧
    dbFind (favoriteHandler
        [{ id := "aaaaaaaaaaaaaaaaaaaaaaaa", sku := some "A1", name := some "W",
           quantity := some "3", description := some "x",
           images := ["uploads/a.png"], featuredImage := some "uploads/a.png",
           isFavorite := some false }] "aaaaaaaaaaaaaaaaaaaaaaaa").1
      "aaaaaaaaaaaaaaaaaaaaaaaa" =
      some (toggleFavoriteDoc
        { id := "aaaaaaaaaaaaaaaaaaaaaaaa", sku := some "A1", name := some "W",
          quantity := some "3", description := some "x",
          images := ["uploads/a.png"], featuredImage := some "uploads/a.png",
          isFavorite := some false }) ∧
    (toggleFavoriteDoc
      { id := "aaaaaaaaaaaaaaaaaaaaaaaa", sku := some "A1", name := some "W",
        quantity := some "3", description := some "x",
        images := ["uploads/a.png"], featuredImage := some "uploads/a.png",
        isFavorite := some false }).id = "aaaaaaaaaaaaaaaaaaaaaaaa" ∧
    (toggleFavoriteDoc
      { id := "aaaaaaaaaaaaaaaaaaaaaaaa", sku := some "A1", name := some "W",
        quantity := some "3", description := some "x",
        images := ["uploads/a.png"], featuredImage := some "uploads/a.png",
        isFavorite := some false }).sku = some "A1" ∧
    (toggleFavoriteDoc
      { id := "aaaaaaaaaaaaaaaaaaaaaaaa", sku := some "A1", name := some "W",
        quantity := some "3", description := some "x",
        images := ["uploads/a.png"], featuredImage := some "uploads/a.png",
        isFavorite := some false }).name = some "W" ∧
    (toggleFavoriteDoc
      { id := "aaaaaaaaaaaaaaaaaaaaaaaa", sku := some "A1", name := some "W",
        quantity := some "3", description := some "x",
        images := ["uploads/a.png"], featuredImage := some "uploads/a.png",
        isFavorite := some false }).quantity = some "3" ∧
    (toggleFavoriteDoc
      { id := "aaaaaaaaaaaaaaaaaaaaaaaa", sku := some "A1", name := some "W",
        quantity := some "3", description := some "x",
        images := ["uploads/a.png"], featuredImage := some "uploads/a.png",
        isFavorite := some false }).description = some "x" ∧
    (toggleFavoriteDoc
      { id := "aaaaaaaaaaaaaaaaaaaaaaaa", sku := some "A1", name := some "W",
        quantity := some "3", description := some "x",
        images := ["uploads/a.png"], featuredImage := some "uploads/a.png",
        isFavorite := some false }).images = ["uploads/a.png"] ∧
    (toggleFavoriteDoc
      { id := "aaaaaaaaaaaaaaaaaaaaaaaa", sku := some "A1", name := some "W",
        quantity := some "3", description := some "x",
        images := ["uploads/a.png"], featuredImage := some "uploads/a.png",
        isFavorite := some false }).featuredImage = some "uploads/a.png" :=
  C8_toggle_frame
    [{ id := "aaaaaaaaaaaaaaaaaaaaaaaa", sku := some "A1", name := some "W",
       quantity := some "3", description := some "x",
       images := ["uploads/a.png"], featuredImage := some "uploads/a.png",
       isFavorite := some false }] "aaaaaaaaaaaaaaaaaaaaaaaa" _ (by decide) rfl

/-- Claim C3: updating an existing product succeeds with 200; with no new
files the stored images sequence is exactly the prior one (carried over
by the read-before-write), and with new files it is exactly the paths of
the newly uploaded files. -/
theorem C3_update_images_semantics (db : DB) (id : String) (b : ReqBody)
    (files : List UploadedFile) (p : Product)
    (hv : isValidObjectId id = true) (hf : dbFind db id = some p) :
    ∃ p2, (updateHandler db id b files).2 =
        { status := 200, body := Body.product p2 } ∧
      dbFind (updateHandler db id b files).1 id = some p2 ∧
      p2.images = (if files.isEmpty then p.images
                   else files.map (fun f => f.path)) := by
  have hpid : p.id = id := dbFind_id hf
  cases files with
  | nil =>
    have h1 := updateHandler_noFiles db b hv hf
    refine ⟨applyUpdate p
      { sku := b.sku, name := b.name, quantity := b.quantity,
        description := b.description, featuredImage := jsOr b.featuredImage none,
        images := some p.images }, ?_, ?_, ?_⟩
    · rw [h1]
    · rw [h1]
      exact dbFind_dbReplace hf (show (applyUpdate p _).id = id from hpid)
    · simp [applyUpdate]
  | cons f0 fs =>
    have h1 := updateHandler_withFiles db b f0 fs hv hf
    refine ⟨applyUpdate p
      { sku := b.sku, name := b.name, quantity := b.quantity,
        description := b.description,
        featuredImage := jsOr b.featuredImage (some f0.path),
        images := some ((f0 :: fs).map (fun f => f.path)) }, ?_, ?_, ?_⟩
    · rw [h1]
    · rw [h1]
      exact dbFind_dbReplace hf (show (applyUpdate p _).id = id from hpid)
    · simp [applyUpdate]

/-- Witness for C3 on a one-document collection updated without files. -/
theorem C3_update_images_semantics_witness :
    ∃ p2, (updateHandler
        [{ id := "aaaaaaaaaaaaaaaaaaaaaaaa", sku := some "A1", name := some "W",
           quantity := some "3", description := some "x",
           images := ["uploads/a.png", "uploads/b.png"],
           featuredImage := some "uploads/a.png", isFavorite := none }]
        "aaaaaaaaaaaaaaaaaaaaaaaa" emptyBody []).2 =
        { status := 200, body := Body.product p2 } ∧
      dbFind (updateHandler
        [{ id := "aaaaaaaaaaaaaaaaaaaaaaaa", sku := some "A1", name := some "W",
           quantity := some "3", description := some "x",
           images := ["uploads/a.png", "uploads/b.png"],
           featuredImage := some "uploads/a.png", isFavorite := none }]
        "aaaaaaaaaaaaaaaaaaaaaaaa" emptyBody []).1 "aaaaaaaaaaaaaaaaaaaaaaaa" =
        some p2 ∧
      p2.images = (if ([] : List UploadedFile).isEmpty
                   then ["uploads/a.png", "uploads/b.png"]
                   else ([] : List UploadedFile).map (fun f => f.path)) :=
  C3_update_images_semantics
    [{ id := "aaaaaaaaaaaaaaaaaaaaaaaa", sku := some "A1", name := some "W",
       quantity := some "3", description := some "x",
       images := ["uploads/a.png", "uploads/b.png"],
       featuredImage := some "uploads/a.png", isFavorite := none }]
    "aaaaaaaaaaaaaaaaaaaaaaaa" emptyBody [] _ (by decide) rfl

/-- Claim C9: a successful create answers 201 with the built document, and an
immediate get-by-id on the assigned identifier answers 200 with the same
document, provided the assigned identifier is well-formed and fresh, as
the persistence layer guarantees. -/
theorem C9_get_after_create (db : DB) (newId : String) (b : ReqBody)
    (files : List UploadedFile) (hv : isValidObjectId newId = true)
    (hfresh : dbFind db newId = none) :
    (createHandler db newId b files).2 =
      { status := 201,
        body := Body.messageProduct "Product successfully added"
          (buildProduct newId b files) } ∧
    getProductHandler (createHandler db newId b files).1 newId =
      { status := 200, body := Body.product (buildProduct newId b files) } := by
  constructor
  · rfl
  · have hfind : dbFind (createHandler db newId b files).1 newId =
        some (buildProduct newId b files) :=
      dbFind_append_fresh _ hfresh rfl
    simp [getProductHandler, mongoFindById, hv, hfind]

/-- Witness for C9: create on an empty collection, then get. -/
theorem C9_get_after_create_witness :
    (createHandler [] "aaaaaaaaaaaaaaaaaaaaaaaa"
        { sku := some "A1", name := some "Widget", quantity := some "3",
          description := some "x", featuredImage := none }
        [{ path := "uploads/a.png" }]).2 =
      { status := 201,
        body := Body.messageProduct "Product successfully added"
          (buildProduct "aaaaaaaaaaaaaaaaaaaaaaaa"
            { sku := some "A1", name := some "Widget", quantity := some "3",
              description := some "x", featuredImage := none }
            [{ path := "uploads/a.png" }]) } ∧
    getProductHandler
        (createHandler [] "aaaaaaaaaaaaaaaaaaaaaaaa"
          { sku := some "A1", name := some "Widget", quantity := some "3",
            description := some "x", featuredImage := none }
          [{ path := "uploads/a.png" }]).1 "aaaaaaaaaaaaaaaaaaaaaaaa" =
      { status := 200,
        body := Body.product (buildProduct "aaaaaaaaaaaaaaaaaaaaaaaa"
          { sku := some "A1", name := some "Widget", quantity := some "3",
            description := some "x", featuredImage := none }
          [{ path := "uploads/a.png" }]) } :=
  C9_get_after_create [] "aaaaaaaaaaaaaaaaaaaaaaaa"
    { sku := some "A1", name := some "Widget", quantity := some "3",
      description := some "x", featuredImage := none }
    [{ path := "uploads/a.png" }] (by decide) rfl

/-- Counterexample for claim C1: an update without new files and without an
explicit featuredImage, on a product whose stored featuredImage is not
its first image, succeeds with 200 and leaves the carried-over images
non-empty while featuredImage stays "uploads/x.png", which differs from
the first image "uploads/a.png" — refuting the claim for the
update-without-new-files case. -/
theorem C1_counterexample :
    (updateHandler
        [{ id := "aaaaaaaaaaaaaaaaaaaaaaaa", sku := none, name := none,
           quantity := none, description := none,
           images := ["uploads/a.png", "uploads/b.png"],
           featuredImage := some "uploads/x.png", isFavorite := none }]
        "aaaaaaaaaaaaaaaaaaaaaaaa" emptyBody []).2 =
      { status := 200,
        body := Body.product
          { id := "aaaaaaaaaaaaaaaaaaaaaaaa", sku := none, name := none,
            quantity := none, description := none,
            images := ["uploads/a.png", "uploads/b.png"],
            featuredImage := some "uploads/x.png", isFavorite := none } } ∧
    dbFind (updateHandler
        [{ id := "aaaaaaaaaaaaaaaaaaaaaaaa", sku := none, name := none,
           quantity := none, description := none,
           images := ["uploads/a.png", "uploads/b.png"],
           featuredImage := some "uploads/x.png", isFavorite := none }]
        "aaaaaaaaaaaaaaaaaaaaaaaa" emptyBody []).1 "aaaaaaaaaaaaaaaaaaaaaaaa" =
      some { id := "aaaaaaaaaaaaaaaaaaaaaaaa", sku := none, name := none,
             quantity := none, description := none,
             images := ["uploads/a.png", "uploads/b.png"],
             featuredImage := some "uploads/x.png", isFavorite := none } ∧
    (["uploads/a.png", "uploads/b.png"] : List String) ≠ [] ∧
    (some "uploads/x.png" : Option String) ≠
      (["uploads/a.png", "uploads/b.png"] : List String).head? := by
  refine ⟨?_, ?_, ?_, ?_⟩
  · decide
  · decide
  · decide
  · decide

/-- Claim C1 as amended: when featuredImage is not explicitly supplied, the
stored featuredImage defaults to the first image at creation, and at
update only when the update carries new files; an update without new
files does not recompute featuredImage from the carried-over images and
leaves it at its prior stored value. -/
theorem C1_featured_image_default (db : DB) (id newId : String) (b : ReqBody)
    (files : List UploadedFile) (hfi : b.featuredImage = none) :
    ((buildProduct newId b files).images ≠ [] →
      (buildProduct newId b files).featuredImage =
        (buildProduct newId b files).images.head?) ∧
    (files ≠ [] → ∀ p2,
      (updateHandler db id b files).2 = { status := 200, body := Body.product p2 } →
      p2.images ≠ [] ∧ p2.featuredImage = p2.images.head?) ∧
    (files = [] → ∀ p p2, dbFind db id = some p →
      (updateHandler db id b files).2 = { status := 200, body := Body.product p2 } →
      p2.featuredImage = p.featuredImage) := by
  refine ⟨?_, ?_, ?_⟩
  · intro hne
    cases files with
    | nil => simp [buildProduct] at hne
    | cons f0 fs => simp [buildProduct, jsOr, hfi]
  · intro hne p2 hresp
    cases files with
    | nil => exact absurd rfl hne
    | cons f0 fs =>
      by_cases hv : isValidObjectId id = true
      · cases hf : dbFind db id with
        | none =>
          simp [updateHandler, mongoFindByIdAndUpdate, hv, hf] at hresp
        | some p =>
          rw [updateHandler_withFiles db b f0 fs hv hf] at hresp
          simp only [Response.mk.injEq, Body.product.injEq, true_and] at hresp
          subst hresp
          constructor
          · simp [applyUpdate]
          · simp [applyUpdate, jsOr, hfi]
      · simp only [Bool.not_eq_true] at hv
        simp [updateHandler, mongoFindByIdAndUpdate, hv] at hresp
  · intro hnil p p2 hf hresp
    subst hnil
    by_cases hv : isValidObjectId id = true
    · rw [updateHandler_noFiles db b hv hf] at hresp
      simp only [Response.mk.injEq, Body.product.injEq, true_and] at hresp
      subst hresp
      simp [applyUpdate, jsOr, hfi]
    · simp only [Bool.not_eq_true] at hv
      simp [updateHandler, mongoFindById, hv] at hresp

/-- Witness for claim C1 as amended: creating with one file and no explicit
featuredImage makes the first image the featured one. -/
theorem C1_featured_image_default_witness :
    (buildProduct "aaaaaaaaaaaaaaaaaaaaaaaa" emptyBody
        [{ path := "uploads/a.png" }]).featuredImage =
      (buildProduct "aaaaaaaaaaaaaaaaaaaaaaaa" emptyBody
        [{ path := "uploads/a.png" }]).images.head? :=
  (C1_featured_image_default [] "aaaaaaaaaaaaaaaaaaaaaaaa"
      "aaaaaaaaaaaaaaaaaaaaaaaa" emptyBody [{ path := "uploads/a.png" }]
      rfl).1 (by decide)

/-- Counterexample for claim C7: a create request that explicitly supplies the
(falsy) featuredImage value "" together with one file stores the first
file path as featuredImage, not the supplied value — refuting the claim
for the supplied empty string. -/
theorem C7_counterexample :
    (createHandler [] "aaaaaaaaaaaaaaaaaaaaaaaa"
        { sku := none, name := none, quantity := none, description := none,
          featuredImage := some "" } [{ path := "uploads/a.png" }]).2 =
      { status := 201,
        body := Body.messageProduct "Product successfully added"
          { id := "aaaaaaaaaaaaaaaaaaaaaaaa", sku := none, name := none,
            quantity := none, description := none, images := ["uploads/a.png"],
            featuredImage := some "uploads/a.png", isFavorite := none } } ∧
    (some "uploads/a.png" : Option String) ≠ some "" := by
  constructor
  · decide
  · decide

/-- Claim C7 as amended: a create request that supplies an explicit non-empty
featuredImage value stores exactly that value, regardless of how many
files were uploaded; a supplied empty string is falsy in the JS
disjunction and is treated as absent. -/
theorem C7_explicit_featured_image (newId : String) (b : ReqBody)
    (files : List UploadedFile) (s : String)
    (hs : b.featuredImage = some s) (hne : s ≠ "") :
    (buildProduct newId b files).featuredImage = some s := by
  simp [buildProduct, jsOr, hs, hne]

/-- Witness for claim C7 as amended, with two uploaded files. -/
theorem C7_explicit_featured_image_witness :
    (buildProduct "aaaaaaaaaaaaaaaaaaaaaaaa"
        { sku := none, name := none, quantity := none, description := none,
          featuredImage := some "uploads/x.png" }
        [{ path := "uploads/a.png" }, { path := "uploads/b.png" }]).featuredImage =
      some "uploads/x.png" :=
  C7_explicit_featured_image "aaaaaaaaaaaaaaaaaaaaaaaa"
    { sku := none, name := none, quantity := none, description := none,
      featuredImage := some "uploads/x.png" }
    [{ path := "uploads/a.png" }, { path := "uploads/b.png" }]
    "uploads/x.png" rfl (by decide)
